import Mathlib

/-!
Shallow embedding of the geometry/NLP core of the cosmetic-surgery
simulation server (python-server: config.py, instruction_parser.py,
mesh_editor.py, app.py), together with theorems checking the
natural-language specification against it.

Python floats are modelled by rationals; Python dicts that are used in
insertion order are modelled by association lists in the same order.
-/

set_option maxRecDepth 2000

namespace CosmeticSim

/-! ## config.py -/

/-- Supported deformation targets (config.py, Config._get_default_config,
key targets of the default configuration). -/
def supportedTargets : List String :=
  ["nasal_tip_mm", "nasal_bridge_mm", "eye_size_ratio", "jaw_width_mm",
   "lip_thickness_mm", "cheek_contour_mm", "forehead_width_mm", "submental_fat_mm"]

/-- Per-target maximum deltas (config.py, Config.get_max_delta, target_max_deltas). -/
def targetMaxDeltas : List (String × ℚ) :=
  [("nasal_tip_mm", 3), ("nasal_bridge_mm", 5/2), ("eye_size_ratio", 3/10),
   ("jaw_width_mm", 4), ("lip_thickness_mm", 2), ("cheek_contour_mm", 7/2),
   ("forehead_width_mm", 5), ("submental_fat_mm", 3)]

/-- Per-target minimum deltas (config.py, Config.get_min_delta, target_min_deltas). -/
def targetMinDeltas : List (String × ℚ) :=
  [("nasal_tip_mm", -3), ("nasal_bridge_mm", -5/2), ("eye_size_ratio", -3/10),
   ("jaw_width_mm", -4), ("lip_thickness_mm", -2), ("cheek_contour_mm", -7/2),
   ("forehead_width_mm", -5), ("submental_fat_mm", -3)]

/-- config.py Config.get_max_delta: per-target table with fallback
limits.max_delta_mm = 4.0 from the default configuration. -/
def getMaxDelta (target : String) : ℚ :=
  (targetMaxDeltas.lookup target).getD 4

/-- config.py Config.get_min_delta: per-target table with fallback
limits.min_delta_mm = -4.0 from the default configuration. -/
def getMinDelta (target : String) : ℚ :=
  (targetMinDeltas.lookup target).getD (-4)

/-- config.py Config.validate_delta: range check min ≤ delta ≤ max. -/
def validateDelta (target : String) (delta : ℚ) : Bool :=
  decide (getMinDelta target ≤ delta ∧ delta ≤ getMaxDelta target)

/-- config.py Config.get_target_params: the default configuration's
assumptions table carries no per-target radius/sigma keys, so the
fallback values radius_mm = 12.0 and sigma_mm = 8.0 are returned for
every target. -/
def getTargetParams (_target : String) : ℚ × ℚ := (12, 8)

/-! ## instruction_parser.py : static tables -/

/-- instruction_parser.py keyword_mapping, in dict insertion order. -/
def keywordMapping : List (String × String) :=
  [("鼻尖", "nasal_tip_mm"), ("鼻先", "nasal_tip_mm"), ("鼻の先", "nasal_tip_mm"),
   ("鼻筋", "nasal_bridge_mm"), ("鼻の高さ", "nasal_bridge_mm"),
   ("目", "eye_size_ratio"), ("目のサイズ", "eye_size_ratio"), ("目の大きさ", "eye_size_ratio"),
   ("顎", "jaw_width_mm"), ("顎幅", "jaw_width_mm"), ("あご", "jaw_width_mm"),
   ("唇", "lip_thickness_mm"), ("くちびる", "lip_thickness_mm"), ("唇の厚さ", "lip_thickness_mm"),
   ("頬", "cheek_contour_mm"), ("ほほ", "cheek_contour_mm"), ("ほお", "cheek_contour_mm"),
   ("額", "forehead_width_mm"), ("ひたい", "forehead_width_mm"),
   ("顎下", "submental_fat_mm"), ("顎下脂肪", "submental_fat_mm"),
   ("顎下脂肪吸引", "submental_fat_mm"), ("二重顎", "submental_fat_mm"),
   ("サブメンタル", "submental_fat_mm"), ("submental", "submental_fat_mm")]

/-- instruction_parser.py action_keywords, in dict insertion order. -/
def actionKeywords : List (String × (String × ℚ)) :=
  [("高く", ("increase", 1)), ("高", ("increase", 1)),
   ("大きく", ("increase", 1)), ("大", ("increase", 1)),
   ("厚く", ("increase", 1)), ("厚", ("increase", 1)),
   ("広く", ("increase", 1)), ("広", ("increase", 1)),
   ("引き締め", ("decrease", 1)), ("細く", ("decrease", 1)), ("細", ("decrease", 1)),
   ("小さく", ("decrease", 1)), ("小", ("decrease", 1)),
   ("薄く", ("decrease", 1)), ("薄", ("decrease", 1)),
   ("狭く", ("decrease", 1)), ("狭", ("decrease", 1)),
   ("吸引", ("decrease", 1))]

/-- instruction_parser.py intensity_keywords, in dict insertion order. -/
def intensityKeywords : List (String × ℚ) :=
  [("少し", 3/10), ("軽く", 3/10), ("ちょっと", 2/5), ("適度に", 1/2),
   ("普通に", 1/2), ("かなり", 7/10), ("強く", 4/5), ("とても", 4/5),
   ("非常に", 9/10), ("極めて", 1)]

/-- instruction_parser.py _get_default_delta, default_ratios table. -/
def defaultRatios : List (String × ℚ) :=
  [("nasal_tip_mm", 3/5), ("nasal_bridge_mm", 1/2), ("eye_size_ratio", 3/10),
   ("jaw_width_mm", 7/10), ("lip_thickness_mm", 1/2), ("cheek_contour_mm", 3/5),
   ("forehead_width_mm", 4/5), ("submental_fat_mm", 3/5)]

/-- instruction_parser.py _get_default_delta: max_delta × per-target
default ratio (fallback 0.5), negated for a decrease action. -/
def getDefaultDelta (target : String) (actionType : String) : ℚ :=
  let maxDelta := getMaxDelta target
  let ratio := (defaultRatios.lookup target).getD (1/2)
  let delta := maxDelta * ratio
  if actionType = "decrease" then -delta else delta

/-! ## instruction_parser.py : text normalization and regex scanning -/

/-- Whitespace characters recognized by the regex class \s
(ASCII whitespace plus the unicode spaces relevant to Japanese text). -/
def isWsChar (c : Char) : Bool :=
  c == ' ' || c == '\t' || c == '\n' || c == '\r' || c == '\x0b' || c == '\x0c' ||
  c == '\x85' || c == '\xa0' || c == '　'

/-- Full-width digit to half-width digit translation
(instruction_parser.py _normalize_instruction, str.maketrans). -/
def toHalfWidth (c : Char) : Char :=
  if '０' ≤ c ∧ c ≤ '９' then Char.ofNat (c.toNat - 0xFEE0) else c

/-- Collapse each whitespace run into one space; the boolean flag records
whether the previous character was whitespace (re.sub of \s+ by a space). -/
def squeezeWs (prevWs : Bool) : List Char → List Char
  | [] => []
  | c :: cs =>
    if isWsChar c then
      if prevWs then squeezeWs true cs else ' ' :: squeezeWs true cs
    else c :: squeezeWs false cs

/-- Remove leading and trailing whitespace (str.strip). -/
def stripWs (l : List Char) : List Char :=
  ((l.dropWhile isWsChar).reverse.dropWhile isWsChar).reverse

/-- instruction_parser.py _normalize_instruction: translate full-width
digits, strip, collapse whitespace runs. -/
def normalizeInstruction (s : String) : String :=
  String.mk (squeezeWs false (stripWs (s.data.map toHalfWidth)))

/-- Substring containment, the Python `in` operator on strings. -/
def containsSub (hay needle : List Char) : Bool :=
  (List.range (hay.length + 1)).any fun i => needle.isPrefixOf (hay.drop i)

/-- Decimal digit test for the regex class \d. -/
def isDigitChar (c : Char) : Bool := '0' ≤ c && c ≤ '9'

/-- Digit characters to a natural number. -/
def digitsToNat (ds : List Char) : Nat :=
  ds.foldl (fun n c => 10 * n + (c.toNat - '0'.toNat)) 0

/-- Python float() on an unsigned decimal literal d+(.d+)? -/
def parseUnsignedQ (l : List Char) : ℚ :=
  let ip := l.takeWhile isDigitChar
  match l.dropWhile isDigitChar with
  | '.' :: fr => (digitsToNat ip : ℚ) + (digitsToNat fr : ℚ) / ((10 : ℚ) ^ fr.length)
  | _ => (digitsToNat ip : ℚ)

/-- Python float() on an optionally signed decimal literal. -/
def parseFloatQ (l : List Char) : ℚ :=
  match l with
  | '+' :: rest => parseUnsignedQ rest
  | '-' :: rest => -(parseUnsignedQ rest)
  | _ => parseUnsignedQ l

/-- Match the regex fragment \d+(?:\.\d+)? at the head of the input,
returning the matched characters and the rest. -/
def matchUnsignedNumber (l : List Char) : Option (List Char × List Char) :=
  let ds := l.takeWhile isDigitChar
  let l2 := l.dropWhile isDigitChar
  if ds.isEmpty then none
  else
    match l2 with
    | '.' :: l3 =>
      let fs := l3.takeWhile isDigitChar
      let l4 := l3.dropWhile isDigitChar
      if fs.isEmpty then some (ds, l2)
      else some (ds ++ '.' :: fs, l4)
    | _ => some (ds, l2)

/-- Match the regex fragment [+-]?\d+(?:\.\d+)? at the head of the input. -/
def matchSignedNumber (l : List Char) : Option (List Char × List Char) :=
  match l with
  | '+' :: rest =>
    match matchUnsignedNumber rest with
    | some (num, r) => some ('+' :: num, r)
    | none => none
  | '-' :: rest =>
    match matchUnsignedNumber rest with
    | some (num, r) => some ('-' :: num, r)
    | none => none
  | _ => matchUnsignedNumber l

/-- Match a literal case-insensitively at the head of the input
(re.IGNORECASE), returning the rest. -/
def matchLitCI : List Char → List Char → Option (List Char)
  | [], rest => some rest
  | _ :: _, [] => none
  | c :: cs, d :: ds => if c.toLower == d.toLower then matchLitCI cs ds else none

/-- Attempt of the pattern ([+-]?\d+(?:\.\d+)?)\s*mm at the head of the
input: on success, the float value of group 1 and the rest. -/
def matchMMAt (l : List Char) : Option (ℚ × List Char) :=
  match matchSignedNumber l with
  | some (num, r1) =>
    match matchLitCI ['m', 'm'] (r1.dropWhile isWsChar) with
    | some r2 => some (parseFloatQ num, r2)
    | none => none
  | none => none

/-- Attempt of the pattern ([+-]?\d+(?:\.\d+)?)\s*% at the head of the
input: on success, the float value of group 1 and the rest. -/
def matchRatioAt (l : List Char) : Option (ℚ × List Char) :=
  match matchSignedNumber l with
  | some (num, r1) =>
    match matchLitCI ['%'] (r1.dropWhile isWsChar) with
    | some r2 => some (parseFloatQ num, r2)
    | none => none
  | none => none

/-- Attempt of the pattern 強度\s*(\d+(?:\.\d+)?)|(\d+(?:\.\d+)?)\s*強度
at the head of the input, first alternative first; on success the float
value of the matched group and the rest. -/
def matchIntensityAt (l : List Char) : Option (ℚ × List Char) :=
  match matchLitCI "強度".data l with
  | some r1 =>
    match matchUnsignedNumber (r1.dropWhile isWsChar) with
    | some (num, r2) => some (parseUnsignedQ num, r2)
    | none =>
      match matchUnsignedNumber l with
      | some (num, r1) =>
        match matchLitCI "強度".data (r1.dropWhile isWsChar) with
        | some r2 => some (parseUnsignedQ num, r2)
        | none => none
      | none => none
  | none =>
    match matchUnsignedNumber l with
    | some (num, r1) =>
      match matchLitCI "強度".data (r1.dropWhile isWsChar) with
      | some r2 => some (parseUnsignedQ num, r2)
      | none => none
    | none => none

/-- re.findall emulation: scan left to right, at each position attempt a
match; on success emit it and continue after the match, otherwise advance
one character.  Every successful attempt of the three patterns above
consumes at least one character, so input length bounds the iteration
count and is used as fuel. -/
def findAllAux (matchAt : List Char → Option (ℚ × List Char)) :
    Nat → List Char → List ℚ
  | 0, _ => []
  | _, [] => []
  | fuel + 1, l@(_ :: rest) =>
    match matchAt l with
    | some (v, r) => v :: findAllAux matchAt fuel r
    | none => findAllAux matchAt fuel rest

/-- re.findall over the whole input. -/
def findAll (matchAt : List Char → Option (ℚ × List Char)) (l : List Char) : List ℚ :=
  findAllAux matchAt (l.length + 1) l

/-! ## instruction_parser.py : operations and the parsing pipeline -/

/-- One structured edit operation, the dictionary built by
instruction_parser.py _extract_operations, with the optional keys later
added by _extract_numerical_values (numerical_value, value_type) and by
_validate_and_normalize_operations (radius_mm, sigma_mm). -/
structure Operation where
  target : String
  delta_mm : ℚ
  action_type : String
  intensity_multiplier : ℚ
  keyword_found : String
  action_found : String
  numerical_value : Option ℚ
  value_type : Option String
  radius_mm : Option ℚ
  sigma_mm : Option ℚ
deriving DecidableEq, Repr

/-- instruction_parser.py _extract_operations: action inference for one
instruction — first matching action keyword in table order wins, else the
sign is inferred from a plus marker (+ or プラス) or a minus marker
(- or マイナス), else increase. -/
def inferAction (instr : List Char) : String × ℚ :=
  match actionKeywords.find? (fun p => containsSub instr p.1.data) with
  | some p => p.2
  | none =>
    if containsSub instr ['+'] || containsSub instr "プラス".data then ("increase", 1)
    else if containsSub instr ['-'] || containsSub instr "マイナス".data then ("decrease", 1)
    else ("increase", 1)

/-- instruction_parser.py _extract_operations: intensity inference —
first matching intensity adverb in table order wins, else 1.0. -/
def inferIntensity (instr : List Char) : ℚ :=
  match intensityKeywords.find? (fun p => containsSub instr p.1.data) with
  | some p => p.2
  | none => 1

/-- instruction_parser.py _extract_operations: one operation per keyword
of the mapping that occurs in the (normalized) instruction, in table
order. -/
def extractOperations (instruction : String) : List Operation :=
  keywordMapping.filterMap fun kt =>
    if containsSub instruction.data kt.1.data then
      let action := inferAction instruction.data
      let intensityMultiplier := inferIntensity instruction.data
      let defaultDelta := getDefaultDelta kt.2 action.1
      some
        { target := kt.2
          delta_mm := defaultDelta * intensityMultiplier
          action_type := action.1
          intensity_multiplier := intensityMultiplier
          keyword_found := kt.1
          action_found := action.1
          numerical_value := none
          value_type := none
          radius_mm := none
          sigma_mm := none }
    else none

/-- instruction_parser.py _convert_value_to_delta. -/
def convertValueToDelta (target : String) (value : ℚ) (valueType : String) : ℚ :=
  if valueType = "mm" then value
  else if valueType = "ratio" then value * getMaxDelta target
  else if valueType = "intensity" then value * getMaxDelta target
  else value

/-- instruction_parser.py _extract_numerical_values: collect mm, %, and
強度 numeric matches from the original instruction; when at least one
value and at least one operation exist, the first value overrides the
first operation's delta. -/
def extractNumericalValues (instruction : String) (operations : List Operation) :
    List Operation :=
  let mms := findAll matchMMAt instruction.data
  let ratios := findAll matchRatioAt instruction.data
  let intensities := findAll matchIntensityAt instruction.data
  let allNumericalValues : List (String × ℚ) :=
    mms.map (fun v => ("mm", v)) ++ ratios.map (fun v => ("ratio", v / 100)) ++
      intensities.map (fun v => ("intensity", v / 10))
  match allNumericalValues, operations with
  | tv :: _, op :: rest =>
    { op with
      delta_mm := convertValueToDelta op.target tv.2 tv.1
      numerical_value := some tv.2
      value_type := some tv.1 } :: rest
  | _, _ => operations

/-- instruction_parser.py _validate_and_normalize_operations: attach the
target's engineering parameters (radius, sigma) to an operation. -/
def addTargetParams (op : Operation) : Operation :=
  let params := getTargetParams op.target
  { op with radius_mm := some params.1, sigma_mm := some params.2 }

/-- instruction_parser.py _validate_and_normalize_operations: keep an
operation only when its delta passes Config.validate_delta, attaching the
target parameters to kept operations. -/
def validateAndNormalizeOperations : List Operation → List Operation
  | [] => []
  | op :: rest =>
    if validateDelta op.target op.delta_mm then
      addTargetParams op :: validateAndNormalizeOperations rest
    else validateAndNormalizeOperations rest

/-- instruction_parser.py parse_instruction: normalize, extract by
keyword, apply the numeric override from the original text, validate.
(The Python try/except wrapper never fires in this total model.) -/
def parseInstruction (instruction : String) : List Operation :=
  let normalized := normalizeInstruction instruction
  let operations := extractOperations normalized
  let operations := extractNumericalValues instruction operations
  validateAndNormalizeOperations operations

/-! ## mesh_editor.py -/

/-- A 3D vertex position. -/
structure Vec3 where
  x : ℚ
  y : ℚ
  z : ℚ
deriving DecidableEq, Repr

/-- Componentwise vector addition. -/
def addVec (v w : Vec3) : Vec3 := ⟨v.x + w.x, v.y + w.y, v.z + w.z⟩

/-- A triangulated face mesh: vertex positions plus triangular faces as
index triples (trimesh.Trimesh in the source). -/
structure Mesh where
  vertices : List Vec3
  faces : List (Nat × Nat × Nat)
deriving DecidableEq, Repr

/-- mesh_editor.py _define_face_regions: landmark index ranges per named
facial region; unknown regions give the empty list (dict .get default). -/
def faceRegions (name : String) : List Nat :=
  if name = "nose_tip" then List.range' 1 9
  else if name = "nose_bridge" then List.range' 168 7
  else if name = "left_eye" then List.range' 33 9
  else if name = "right_eye" then List.range' 362 11
  else if name = "left_eyebrow" then List.range' 70 6
  else if name = "right_eyebrow" then List.range' 300 7
  else if name = "mouth_outer" then List.range' 61 23
  else if name = "mouth_inner" then List.range' 78 17
  else if name = "jaw_line" then List.range' 172 27
  else if name = "left_cheek" then List.range' 116 24
  else if name = "right_cheek" then List.range' 345 14
  else if name = "forehead" then List.range' 10 12
  else if name = "chin" then List.range' 175 10
  else []

/-- Add the scaled displacement to every vertex whose index (counted from
n) lies in the valid index list; all other vertices are unchanged
(the fancy-indexed += of mesh_editor.py _deform_region). -/
def displaceFrom (valid : List Nat) (sc : Vec3) : Nat → List Vec3 → List Vec3
  | _, [] => []
  | n, v :: vs =>
    (if valid.contains n then addVec v sc else v) :: displaceFrom valid sc (n + 1) vs

/-- mesh_editor.py _deform_region: look the region up, keep the indices
below the vertex count, scale the displacement by 0.1 and add it to the
vertices at the surviving indices; unknown or fully out-of-range regions
leave the mesh unchanged. -/
def deformRegion (mesh : Mesh) (regionName : String) (displacement : Vec3) : Mesh :=
  let regionIndices := faceRegions regionName
  if regionIndices.isEmpty then mesh
  else
    let validIndices := regionIndices.filter (fun idx => idx < mesh.vertices.length)
    if validIndices.isEmpty then mesh
    else
      let scaled : Vec3 :=
        ⟨displacement.x / 10, displacement.y / 10, displacement.z / 10⟩
      { mesh with vertices := displaceFrom validIndices scaled 0 mesh.vertices }

/-- mesh_editor.py _deform_nose_tip. -/
def deformNoseTip (mesh : Mesh) (value : ℚ) : Mesh :=
  deformRegion mesh "nose_tip" ⟨0, 0, value⟩

/-- mesh_editor.py _deform_nose_bridge. -/
def deformNoseBridge (mesh : Mesh) (value : ℚ) : Mesh :=
  deformRegion mesh "nose_bridge" ⟨0, value, 0⟩

/-- mesh_editor.py _deform_eye_size. -/
def deformEyeSize (mesh : Mesh) (value : ℚ) : Mesh :=
  deformRegion (deformRegion mesh "left_eye" ⟨value, 0, 0⟩) "right_eye" ⟨-value, 0, 0⟩

/-- mesh_editor.py _deform_jaw_width. -/
def deformJawWidth (mesh : Mesh) (value : ℚ) : Mesh :=
  deformRegion mesh "jaw_line" ⟨value, 0, 0⟩

/-- mesh_editor.py _deform_lip_thickness. -/
def deformLipThickness (mesh : Mesh) (value : ℚ) : Mesh :=
  deformRegion mesh "mouth_outer" ⟨0, 0, value⟩

/-- mesh_editor.py _deform_cheek_contour. -/
def deformCheekContour (mesh : Mesh) (value : ℚ) : Mesh :=
  deformRegion (deformRegion mesh "left_cheek" ⟨value, 0, 0⟩) "right_cheek" ⟨-value, 0, 0⟩

/-- mesh_editor.py _deform_forehead_width. -/
def deformForeheadWidth (mesh : Mesh) (value : ℚ) : Mesh :=
  deformRegion mesh "forehead" ⟨value, 0, 0⟩

/-- mesh_editor.py _clamp_value: per-target engineering limits; targets
outside the table pass through unclamped. -/
def clampLimits : List (String × (ℚ × ℚ)) :=
  [("nasal_tip_mm", (-1, 1)), ("nasal_bridge_mm", (-1, 1)),
   ("eye_size_ratio", (-1/10, 1/10)), ("jaw_width_mm", (-2, 2)),
   ("lip_thickness_mm", (-1, 1)), ("cheek_contour_mm", (-3/2, 3/2)),
   ("forehead_width_mm", (-3/2, 3/2))]

/-- mesh_editor.py _clamp_value. -/
def clampValue (target : String) (value : ℚ) : ℚ :=
  match clampLimits.lookup target with
  | some lohi => max lohi.1 (min lohi.2 value)
  | none => value

/-- mesh_editor.py _apply_operation: clamp the delta, then dispatch on
the target; an unknown target (in particular submental_fat_mm, which has
no branch) returns the mesh unchanged. -/
def applyOperation (mesh : Mesh) (op : Operation) : Mesh :=
  let value := clampValue op.target op.delta_mm
  if op.target = "nasal_tip_mm" then deformNoseTip mesh value
  else if op.target = "nasal_bridge_mm" then deformNoseBridge mesh value
  else if op.target = "eye_size_ratio" then deformEyeSize mesh value
  else if op.target = "jaw_width_mm" then deformJawWidth mesh value
  else if op.target = "lip_thickness_mm" then deformLipThickness mesh value
  else if op.target = "cheek_contour_mm" then deformCheekContour mesh value
  else if op.target = "forehead_width_mm" then deformForeheadWidth mesh value
  else mesh

/-- mesh_editor.py edit_mesh: fold the operations over a copy of the
input mesh. -/
def editMesh (mesh : Mesh) (operations : List Operation) : Mesh :=
  operations.foldl applyOperation mesh

/-! ## app.py : _estimate_similarity -/

/-- A 2×2 matrix with rows (a b) and (c d). -/
structure Mat2 where
  a : ℚ
  b : ℚ
  c : ℚ
  d : ℚ
deriving DecidableEq, Repr

/-- 2×2 identity matrix. -/
def Mat2.id : Mat2 := ⟨1, 0, 0, 1⟩

/-- Matrix transpose. -/
def Mat2.transpose (m : Mat2) : Mat2 := ⟨m.a, m.c, m.b, m.d⟩

/-- Matrix product. -/
def Mat2.mul (m n : Mat2) : Mat2 :=
  ⟨m.a * n.a + m.b * n.c, m.a * n.b + m.b * n.d,
   m.c * n.a + m.d * n.c, m.c * n.b + m.d * n.d⟩

/-- Determinant. -/
def Mat2.det (m : Mat2) : ℚ := m.a * m.d - m.b * m.c

/-- Negate the last row (the Vt[-1, :] *= -1 step of app.py
_estimate_similarity). -/
def Mat2.negLastRow (m : Mat2) : Mat2 := ⟨m.a, m.b, -m.c, -m.d⟩

/-- Orthogonality: transpose times self is the identity.  This is the
contract of the factors U and Vt returned by the library SVD. -/
def Mat2.IsOrthogonal (m : Mat2) : Prop := m.transpose.mul m = Mat2.id

/-- Result of the library singular-value decomposition S = U·diag(s)·Vt
(np.linalg.svd), treated as an external collaborator: the factors U, Vt
and the two singular values. -/
structure SvdResult where
  U : Mat2
  s1 : ℚ
  s2 : ℚ
  Vt : Mat2
deriving DecidableEq, Repr

/-- The estimated similarity transform (R, s, t). -/
structure SimilarityResult where
  R : Mat2
  scale : ℚ
  t : ℚ × ℚ
deriving DecidableEq, Repr

/-- app.py _estimate_similarity lines computing R from the SVD factors:
R = Vt.T @ U.T, and when det(R) < 0 the last row of Vt is negated and R
recomputed (reflection correction). -/
def procrustesRotation (U Vt : Mat2) : Mat2 :=
  let R := Vt.transpose.mul U.transpose
  if R.det < 0 then (Vt.negLastRow.transpose).mul U.transpose else R

/-- app.py _estimate_similarity, parametrized by the library SVD: raise
(ValueError, modelled as Except.error) when the shapes differ or fewer
than two correspondences are given; otherwise center both point sets,
form the cross-covariance, decompose it, build the reflection-corrected
rotation, the scale with the 1e-8 degeneracy guard, and the translation. -/
def estimateSimilarity (svd : Mat2 → SvdResult) (A B : List (ℚ × ℚ)) :
    Except String SimilarityResult :=
  if A.length ≠ B.length ∨ A.length < 2 then
    Except.error "Need >=2 corresponding points of same shape"
  else
    let n : ℚ := (A.length : ℚ)
    let muA : ℚ × ℚ := ((A.map Prod.fst).sum / n, (A.map Prod.snd).sum / n)
    let muB : ℚ × ℚ := ((B.map Prod.fst).sum / n, (B.map Prod.snd).sum / n)
    let Ac := A.map fun p => (p.1 - muA.1, p.2 - muA.2)
    let Bc := B.map fun p => (p.1 - muB.1, p.2 - muB.2)
    let S : Mat2 :=
      ⟨(List.zipWith (fun p q => p.1 * q.1) Ac Bc).sum / n,
       (List.zipWith (fun p q => p.1 * q.2) Ac Bc).sum / n,
       (List.zipWith (fun p q => p.2 * q.1) Ac Bc).sum / n,
       (List.zipWith (fun p q => p.2 * q.2) Ac Bc).sum / n⟩
    let dec := svd S
    let R := procrustesRotation dec.U dec.Vt
    let varA := (Ac.map fun p => p.1 ^ 2 + p.2 ^ 2).sum / n
    let scale := (dec.s1 + dec.s2) / max (1 / 100000000) varA
    let muAR : ℚ × ℚ :=
      (muA.1 * R.a + muA.2 * R.c, muA.1 * R.b + muA.2 * R.d)
    Except.ok ⟨R, scale, (muB.1 - scale * muAR.1, muB.2 - scale * muAR.2)⟩

/-! ## Spec-claim formalizations and auxiliary instances -/

instance {ε α : Type} [DecidableEq ε] [DecidableEq α] : DecidableEq (Except ε α)
  | Except.error x, Except.error y =>
    if h : x = y then Decidable.isTrue (congrArg Except.error h)
    else Decidable.isFalse fun hc => h (Except.error.inj hc)
  | Except.error _, Except.ok _ => Decidable.isFalse fun hc => Except.noConfusion hc
  | Except.ok _, Except.error _ => Decidable.isFalse fun hc => Except.noConfusion hc
  | Except.ok x, Except.ok y =>
    if h : x = y then Decidable.isTrue (congrArg Except.ok h)
    else Decidable.isFalse fun hc => h (Except.ok.inj hc)

/-- The x coordinate of vertex i of a mesh (0 when out of range). -/
def vertexXAt (mesh : Mesh) (i : Nat) : ℚ := (mesh.vertices.getD i ⟨0, 0, 0⟩).x

/-- The mean x coordinate over all vertices: the face centerline in the
sense of the spec's jaw-width description. -/
def centerlineX (mesh : Mesh) : ℚ :=
  (mesh.vertices.map Vec3.x).sum / (mesh.vertices.length : ℚ)

/-- The spec's claim about the jaw-width deformation: each jaw-region
vertex moves along the lateral axis by an amount scaled by the
operation's sign and by that vertex's distance from the face centerline
(some per-call proportionality factor k). -/
def jawDisplacementScaledByCenterlineDistance : Prop :=
  ∀ (mesh : Mesh) (value : ℚ), ∃ k : ℚ,
    ∀ i, i < mesh.vertices.length → i ∈ faceRegions "jaw_line" →
      vertexXAt (deformJawWidth mesh value) i - vertexXAt mesh i =
        k * |vertexXAt mesh i - centerlineX mesh|

/-- The spec's claim C7: for every supported target the safety range
straddles zero and the deform-time engineering clamp keeps every value
inside the safety range. -/
def clampContainedInSafetyRange : Prop :=
  ∀ target ∈ supportedTargets,
    (getMinDelta target ≤ 0 ∧ 0 ≤ getMaxDelta target) ∧
    ∀ v : ℚ, getMinDelta target ≤ clampValue target v ∧
      clampValue target v ≤ getMaxDelta target

/-! ## Helper lemmas -/

theorem displaceFrom_length (valid : List Nat) (sc : Vec3) (n : Nat) (vs : List Vec3) :
    (displaceFrom valid sc n vs).length = vs.length := by
  induction vs generalizing n with
  | nil => rfl
  | cons v vs ih => simp [displaceFrom, ih]

theorem deformRegion_preserves (mesh : Mesh) (r : String) (d : Vec3) :
    (deformRegion mesh r d).vertices.length = mesh.vertices.length ∧
    (deformRegion mesh r d).faces = mesh.faces := by
  unfold deformRegion
  dsimp only
  split
  · exact ⟨rfl, rfl⟩
  · split
    · exact ⟨rfl, rfl⟩
    · exact ⟨displaceFrom_length _ _ _ _, rfl⟩

theorem applyOperation_preserves (mesh : Mesh) (op : Operation) :
    (applyOperation mesh op).vertices.length = mesh.vertices.length ∧
    (applyOperation mesh op).faces = mesh.faces := by
  have hd := deformRegion_preserves
  unfold applyOperation deformNoseTip deformNoseBridge deformEyeSize deformJawWidth
    deformLipThickness deformCheekContour deformForeheadWidth
  split
  · exact hd _ _ _
  · split
    · exact hd _ _ _
    · split
      · exact ⟨((hd _ _ _).1).trans (hd _ _ _).1, ((hd _ _ _).2).trans (hd _ _ _).2⟩
      · split
        · exact hd _ _ _
        · split
          · exact hd _ _ _
          · split
            · exact ⟨((hd _ _ _).1).trans (hd _ _ _).1, ((hd _ _ _).2).trans (hd _ _ _).2⟩
            · split
              · exact hd _ _ _
              · exact ⟨rfl, rfl⟩

/-- C2: For every mesh and every operation sequence, the mesh returned by
the deformation engine's edit_mesh has the same vertex count as the input
mesh and an exactly identical face list; only vertex positions may
differ. -/
theorem edit_mesh_preserves_vertex_count_and_faces (mesh : Mesh) (ops : List Operation) :
    (editMesh mesh ops).vertices.length = mesh.vertices.length ∧
    (editMesh mesh ops).faces = mesh.faces := by
  induction ops generalizing mesh with
  | nil => exact ⟨rfl, rfl⟩
  | cons op rest ih =>
    have h1 := applyOperation_preserves mesh op
    have h2 := ih (applyOperation mesh op)
    exact ⟨h2.1.trans h1.1, h2.2.trans h1.2⟩

/-! ## Similarity solver theorems -/

/-- C3: The similarity solver raises an error if and only if the two
point sequences have different shapes or fewer than 2 correspondences
are given; on every equal-shape input with at least 2 points it returns
a result without raising.  The library SVD is an arbitrary parameter. -/
theorem estimate_similarity_error_iff (svd : Mat2 → SvdResult) (A B : List (ℚ × ℚ)) :
    ((∃ msg, estimateSimilarity svd A B = Except.error msg) ↔
      (A.length ≠ B.length ∨ A.length < 2)) ∧
    ((∃ res, estimateSimilarity svd A B = Except.ok res) ↔
      (A.length = B.length ∧ 2 ≤ A.length)) := by
  unfold estimateSimilarity
  by_cases h : A.length ≠ B.length ∨ A.length < 2
  · rw [if_pos h]
    constructor
    · exact ⟨fun _ => h, fun _ => ⟨_, rfl⟩⟩
    · constructor
      · rintro ⟨res, hres⟩
        exact absurd hres (by simp)
      · rintro ⟨heq, hge⟩
        rcases h with h | h
        · exact absurd heq h
        · omega
  · rw [if_neg h]
    push_neg at h
    constructor
    · constructor
      · rintro ⟨msg, hmsg⟩
        exact absurd hmsg (by simp)
      · rintro (hne | hlt)
        · exact absurd h.1 hne
        · omega
    · exact ⟨fun _ => ⟨h.1, by omega⟩, fun _ => ⟨_, rfl⟩⟩

theorem Mat2.det_mul (m n : Mat2) : (m.mul n).det = m.det * n.det := by
  simp only [Mat2.mul, Mat2.det]
  ring

theorem Mat2.det_transpose (m : Mat2) : m.transpose.det = m.det := by
  simp only [Mat2.transpose, Mat2.det]
  ring

theorem Mat2.det_negLastRow (m : Mat2) : m.negLastRow.det = -m.det := by
  simp only [Mat2.negLastRow, Mat2.det]
  ring

theorem Mat2.det_of_orthogonal (m : Mat2) (h : m.IsOrthogonal) :
    m.det = 1 ∨ m.det = -1 := by
  obtain ⟨a, b, c, d⟩ := m
  unfold Mat2.IsOrthogonal Mat2.transpose Mat2.mul Mat2.id at h
  simp only [Mat2.mk.injEq] at h
  obtain ⟨h1, h2, h3, h4⟩ := h
  have hsq : (a * d - b * c) * (a * d - b * c) = 1 := by nlinarith [h1, h2, h4]
  have := mul_self_eq_one_iff.mp hsq
  simpa [Mat2.det] using this

theorem procrustesRotation_det (U Vt : Mat2)
    (hU : U.IsOrthogonal) (hV : Vt.IsOrthogonal) :
    (procrustesRotation U Vt).det = 1 := by
  have hdU := Mat2.det_of_orthogonal U hU
  have hdV := Mat2.det_of_orthogonal Vt hV
  unfold procrustesRotation
  dsimp only
  split
  · next hlt =>
    rw [Mat2.det_mul, Mat2.det_transpose, Mat2.det_negLastRow]
    rw [Mat2.det_mul, Mat2.det_transpose, Mat2.det_transpose] at hlt
    rcases hdU with h1 | h1 <;> rcases hdV with h2 | h2 <;>
      rw [Mat2.det_transpose, h1, h2] <;> rw [h1, h2] at hlt <;> norm_num at hlt ⊢
  · next hge =>
    rw [Mat2.det_mul, Mat2.det_transpose, Mat2.det_transpose] at hge ⊢
    rcases hdU with h1 | h1 <;> rcases hdV with h2 | h2 <;> rw [h1, h2] at hge ⊢ <;>
      norm_num at hge ⊢

/-- C4: For every valid input (equal shapes, at least 2 points) and every
library SVD meeting its contract that the returned factors U and Vt are
orthogonal — which covers point sets related by a reflection composed
with a rotation, where the uncorrected product has determinant -1 — the
rotation returned by the solver is proper: det(R) = +1. -/
theorem estimate_similarity_returns_proper_rotation (svd : Mat2 → SvdResult)
    (hsvd : ∀ S, (svd S).U.IsOrthogonal ∧ (svd S).Vt.IsOrthogonal)
    (A B : List (ℚ × ℚ)) (res : SimilarityResult)
    (h : estimateSimilarity svd A B = Except.ok res) : res.R.det = 1 := by
  unfold estimateSimilarity at h
  split at h
  · exact absurd h (by simp)
  · simp only [Except.ok.injEq] at h
    subst h
    exact procrustesRotation_det _ _ (hsvd _).1 (hsvd _).2

/-- Witness for C4: a concrete SVD oracle whose Vt factor is a
reflection (det = -1), two concrete 2-point sets, and the resulting
proper rotation with determinant +1. -/
theorem estimate_similarity_returns_proper_rotation_witness :
    estimateSimilarity (fun _ => ⟨Mat2.id, 1, 1, ⟨0, 1, 1, 0⟩⟩)
        [(0, 0), (1, 0)] [(0, 0), (1, 0)] =
      Except.ok ⟨⟨0, -1, 1, 0⟩, 8, (1/2, 4)⟩ ∧
    (SimilarityResult.mk ⟨0, -1, 1, 0⟩ 8 (1/2, 4)).R.det = 1 := by
  constructor
  · with_unfolding_all decide
  · exact estimate_similarity_returns_proper_rotation
      (fun _ => ⟨Mat2.id, 1, 1, ⟨0, 1, 1, 0⟩⟩)
      (by
        intro _
        constructor
        · show Mat2.IsOrthogonal Mat2.id
          with_unfolding_all rfl
        · show Mat2.IsOrthogonal ⟨0, 1, 1, 0⟩
          with_unfolding_all rfl)
      [(0, 0), (1, 0)] [(0, 0), (1, 0)] _ (by with_unfolding_all decide)

/-! ## Jaw deformation: uniform displacement versus centerline scaling -/

theorem displaceFrom_getD (valid : List Nat) (sc : Vec3) (n i : Nat) (vs : List Vec3)
    (h : i < vs.length) :
    (displaceFrom valid sc n vs).getD i ⟨0, 0, 0⟩ =
      if valid.contains (n + i) then addVec (vs.getD i ⟨0, 0, 0⟩) sc
      else vs.getD i ⟨0, 0, 0⟩ := by
  induction vs generalizing n i with
  | nil => simp at h
  | cons v vs ih =>
    cases i with
    | zero => simp [displaceFrom]
    | succ j =>
      have hj : j < vs.length := by simpa using h
      have hnj : n + (j + 1) = (n + 1) + j := by omega
      simp only [displaceFrom, List.getD_cons_succ, ih (n + 1) j hj, hnj]

theorem deformRegion_vertexAt (mesh : Mesh) (r : String) (d : Vec3) (i : Nat)
    (h : i < mesh.vertices.length) :
    (deformRegion mesh r d).vertices.getD i ⟨0, 0, 0⟩ =
      if i ∈ faceRegions r then
        addVec (mesh.vertices.getD i ⟨0, 0, 0⟩) ⟨d.x / 10, d.y / 10, d.z / 10⟩
      else mesh.vertices.getD i ⟨0, 0, 0⟩ := by
  unfold deformRegion
  dsimp only
  split
  · next hemp =>
    rw [if_neg]
    intro hmem
    rw [List.isEmpty_iff] at hemp
    rw [hemp] at hmem
    exact List.not_mem_nil _ hmem
  · split
    · next hvemp =>
      rw [if_neg]
      intro hmem
      rw [List.isEmpty_iff] at hvemp
      have : i ∈ (faceRegions r).filter (fun idx => idx < mesh.vertices.length) :=
        List.mem_filter.mpr ⟨hmem, by simpa using h⟩
      rw [hvemp] at this
      exact List.not_mem_nil _ this
    · rw [displaceFrom_getD _ _ 0 i _ h, Nat.zero_add]
      by_cases hmem : i ∈ faceRegions r
      · rw [if_pos, if_pos hmem]
        simp only [List.contains, List.elem_eq_mem, decide_eq_true_eq]
        exact List.mem_filter.mpr ⟨hmem, by simpa using h⟩
      · rw [if_neg, if_neg hmem]
        simp only [List.contains, List.elem_eq_mem, decide_eq_true_eq]
        intro hcon
        exact hmem (List.mem_filter.mp hcon).1

/-- Counterexample to C6: on a 173-vertex mesh whose vertices all sit on
the centerline (x = 0, distance 0), the engine still displaces jaw
vertex 172 by a nonzero amount along x, so the displacement is not
scaled by the distance from the centerline. -/
theorem jaw_displacement_not_scaled_by_centerline_distance :
    ¬ jawDisplacementScaledByCenterlineDistance := by
  intro hclaim
  obtain ⟨k, hk⟩ := hclaim ⟨List.replicate 173 ⟨0, 0, 0⟩, []⟩ 2
  have h172 := hk 172 (by simp) (by decide)
  have h1 : vertexXAt (deformJawWidth ⟨List.replicate 173 ⟨0, 0, 0⟩, []⟩ 2) 172 = 1/5 := by
    with_unfolding_all decide
  have h2 : vertexXAt ⟨List.replicate 173 ⟨0, 0, 0⟩, []⟩ 172 = 0 := by
    with_unfolding_all decide
  have h3 : centerlineX ⟨List.replicate 173 ⟨0, 0, 0⟩, []⟩ = 0 := by
    simp [centerlineX, List.map_replicate, List.sum_replicate]
  rw [h1, h2, h3] at h172
  norm_num at h172

/-- C6 amended: when the engine applies a jaw-width operation, every
valid jaw-region vertex is displaced along the lateral (x) axis by the
same amount value/10 — signed by the operation's value but independent
of the vertex's distance from the face centerline — and all other
vertices are unchanged. -/
theorem deform_jaw_width_uniform_lateral_displacement (mesh : Mesh) (value : ℚ)
    (i : Nat) (h : i < mesh.vertices.length) :
    (deformJawWidth mesh value).vertices.getD i ⟨0, 0, 0⟩ =
      if i ∈ faceRegions "jaw_line" then
        addVec (mesh.vertices.getD i ⟨0, 0, 0⟩) ⟨value / 10, 0, 0⟩
      else mesh.vertices.getD i ⟨0, 0, 0⟩ := by
  unfold deformJawWidth
  rw [deformRegion_vertexAt _ _ _ _ h]
  norm_num

/-- Witness for the amended C6 at a concrete mesh and vertex index. -/
theorem deform_jaw_width_uniform_lateral_displacement_witness :
    172 < (Mesh.mk (List.replicate 173 ⟨1, 2, 3⟩) []).vertices.length ∧
    (deformJawWidth ⟨List.replicate 173 ⟨1, 2, 3⟩, []⟩ 2).vertices.getD 172 ⟨0, 0, 0⟩ =
      if 172 ∈ faceRegions "jaw_line" then
        addVec ((Mesh.mk (List.replicate 173 ⟨1, 2, 3⟩) []).vertices.getD 172 ⟨0, 0, 0⟩)
          ⟨(2 : ℚ) / 10, 0, 0⟩
      else (Mesh.mk (List.replicate 173 ⟨1, 2, 3⟩) []).vertices.getD 172 ⟨0, 0, 0⟩ :=
  ⟨by simp,
   deform_jaw_width_uniform_lateral_displacement ⟨List.replicate 173 ⟨1, 2, 3⟩, []⟩ 2 172
     (by simp)⟩

/-! ## Safety range and engineering clamp -/

/-- Counterexample to C7: submental_fat_mm is a supported target but has
no entry in the engineering clamp table, so the clamp passes 100 through
unchanged, far outside its safety range [-3, 3]. -/
theorem clamp_not_contained_for_submental : ¬ clampContainedInSafetyRange := by
  intro hclaim
  have h := ((hclaim "submental_fat_mm" (by decide)).2 100).2
  have h1 : clampValue "submental_fat_mm" 100 = 100 := rfl
  have h2 : getMaxDelta "submental_fat_mm" = 3 := rfl
  rw [h1, h2] at h
  norm_num at h

theorem clampAux (lo hi v minD maxD : ℚ) (h1 : minD ≤ lo) (h2 : hi ≤ maxD)
    (h3 : lo ≤ maxD) :
    minD ≤ max lo (min hi v) ∧ max lo (min hi v) ≤ maxD :=
  ⟨le_trans h1 (le_max_left _ _),
   max_le h3 (le_trans (min_le_left _ _) h2)⟩

/-- C7 amended: for every supported target, min_delta ≤ 0 ≤ max_delta;
and for every supported target other than submental_fat_mm — the one
target without an engineering clamp entry — the deform-time clamp always
lands inside the safety range. -/
theorem min_max_delta_straddle_zero_and_clamp_contained (target : String)
    (h : target ∈ supportedTargets) :
    (getMinDelta target ≤ 0 ∧ 0 ≤ getMaxDelta target) ∧
    (target ≠ "submental_fat_mm" →
      ∀ v : ℚ, getMinDelta target ≤ clampValue target v ∧
        clampValue target v ≤ getMaxDelta target) := by
  simp only [supportedTargets, List.mem_cons, List.not_mem_nil, or_false] at h
  rcases h with rfl | rfl | rfl | rfl | rfl | rfl | rfl | rfl
  · exact ⟨by with_unfolding_all decide,
      fun _ v => clampAux (-1) 1 v (-3) 3 (by norm_num) (by norm_num) (by norm_num)⟩
  · exact ⟨by with_unfolding_all decide,
      fun _ v => clampAux (-1) 1 v (-5/2) (5/2) (by norm_num) (by norm_num) (by norm_num)⟩
  · exact ⟨by with_unfolding_all decide,
      fun _ v => clampAux (-1/10) (1/10) v (-3/10) (3/10) (by norm_num) (by norm_num)
        (by norm_num)⟩
  · exact ⟨by with_unfolding_all decide,
      fun _ v => clampAux (-2) 2 v (-4) 4 (by norm_num) (by norm_num) (by norm_num)⟩
  · exact ⟨by with_unfolding_all decide,
      fun _ v => clampAux (-1) 1 v (-2) 2 (by norm_num) (by norm_num) (by norm_num)⟩
  · exact ⟨by with_unfolding_all decide,
      fun _ v => clampAux (-3/2) (3/2) v (-7/2) (7/2) (by norm_num) (by norm_num)
        (by norm_num)⟩
  · exact ⟨by with_unfolding_all decide,
      fun _ v => clampAux (-3/2) (3/2) v (-5) 5 (by norm_num) (by norm_num) (by norm_num)⟩
  · exact ⟨by with_unfolding_all decide,
      fun hne _ => absurd rfl hne⟩

/-- Witness for the amended C7 at the concrete target nasal_tip_mm and
value 50. -/
theorem min_max_delta_straddle_zero_and_clamp_contained_witness :
    "nasal_tip_mm" ∈ supportedTargets ∧
    (getMinDelta "nasal_tip_mm" ≤ clampValue "nasal_tip_mm" 50 ∧
      clampValue "nasal_tip_mm" 50 ≤ getMaxDelta "nasal_tip_mm") :=
  ⟨by decide,
   (min_max_delta_straddle_zero_and_clamp_contained "nasal_tip_mm" (by decide)).2
     (by decide) 50⟩

/-! ## Parser totality on keyword-free text -/

theorem extractNumericalValues_nil (instruction : String) :
    extractNumericalValues instruction [] = [] := by
  unfold extractNumericalValues
  dsimp only
  split
  all_goals simp_all

/-- C8: parse_instruction returns the empty list on any text none of
whose registered keywords occur in the normalized instruction (and, the
model being total, it always returns a list). -/
theorem parse_instruction_no_keyword_returns_empty (s : String)
    (h : ∀ kw ∈ keywordMapping, containsSub (normalizeInstruction s).data kw.1.data = false) :
    parseInstruction s = [] := by
  have hext : extractOperations (normalizeInstruction s) = [] := by
    unfold extractOperations
    rw [List.filterMap_eq_nil_iff]
    intro kt hkt
    rw [h kt hkt]
    simp
  unfold parseInstruction
  dsimp only
  rw [hext, extractNumericalValues_nil]
  rfl

/-- Witness for C8 on the keyword-free text xyz. -/
theorem parse_instruction_no_keyword_returns_empty_witness :
    parseInstruction "xyz" = [] :=
  parse_instruction_no_keyword_returns_empty "xyz" (by with_unfolding_all decide)

/-! ## Submental target is a no-op in the engine -/

/-- C9: submental_fat_mm is a supported target with its own parser
keywords, yet the engine's dispatch has no branch for it, so applying
such an operation leaves the mesh unchanged. -/
theorem apply_operation_submental_is_noop (mesh : Mesh) (op : Operation)
    (h : op.target = "submental_fat_mm") :
    applyOperation mesh op = mesh ∧
    "submental_fat_mm" ∈ supportedTargets ∧
    ("顎下", "submental_fat_mm") ∈ keywordMapping := by
  refine ⟨?_, by decide, by decide⟩
  unfold applyOperation
  rw [h]
  rfl

/-- Witness for C9 at a concrete mesh and operation. -/
theorem apply_operation_submental_is_noop_witness :
    applyOperation ⟨[⟨1, 2, 3⟩], []⟩
        ⟨"submental_fat_mm", 1, "decrease", 1, "顎下", "decrease", none, none,
          some 12, some 8⟩ =
      ⟨[⟨1, 2, 3⟩], []⟩ :=
  (apply_operation_submental_is_noop ⟨[⟨1, 2, 3⟩], []⟩
    ⟨"submental_fat_mm", 1, "decrease", 1, "顎下", "decrease", none, none,
      some 12, some 8⟩ rfl).1

/-! ## Concrete parser evaluations -/

/-- Full evaluation of the parser on the instruction 顎を細くする 強度3
(make the jaw narrower, intensity 3). -/
theorem parseInstruction_eval_jaw :
    parseInstruction "顎を細くする 強度3" =
      [{ target := "jaw_width_mm", delta_mm := 6/5, action_type := "decrease",
         intensity_multiplier := 1, keyword_found := "顎", action_found := "decrease",
         numerical_value := some (3/10), value_type := some "intensity",
         radius_mm := some 12, sigma_mm := some 8 }] := by
  have hnorm : normalizeInstruction "顎を細くする 強度3" = "顎を細くする 強度3" := by with_unfolding_all decide
  have hext : extractOperations "顎を細くする 強度3" =
      [{ target := "jaw_width_mm", delta_mm := -14/5, action_type := "decrease",
         intensity_multiplier := 1, keyword_found := "顎", action_found := "decrease",
         numerical_value := none, value_type := none, radius_mm := none, sigma_mm := none }] := by
    have j00 : containsSub "顎を細くする 強度3".data "鼻尖".data = false := by with_unfolding_all decide
    have j01 : containsSub "顎を細くする 強度3".data "鼻先".data = false := by with_unfolding_all decide
    have j02 : containsSub "顎を細くする 強度3".data "鼻の先".data = false := by with_unfolding_all decide
    have j03 : containsSub "顎を細くする 強度3".data "鼻筋".data = false := by with_unfolding_all decide
    have j04 : containsSub "顎を細くする 強度3".data "鼻の高さ".data = false := by with_unfolding_all decide
    have j05 : containsSub "顎を細くする 強度3".data "目".data = false := by with_unfolding_all decide
    have j06 : containsSub "顎を細くする 強度3".data "目のサイズ".data = false := by with_unfolding_all decide
    have j07 : containsSub "顎を細くする 強度3".data "目の大きさ".data = false := by with_unfolding_all decide
    have j08 : containsSub "顎を細くする 強度3".data "顎".data = true := by with_unfolding_all decide
    have j09 : containsSub "顎を細くする 強度3".data "顎幅".data = false := by with_unfolding_all decide
    have j10 : containsSub "顎を細くする 強度3".data "あご".data = false := by with_unfolding_all decide
    have j11 : containsSub "顎を細くする 強度3".data "唇".data = false := by with_unfolding_all decide
    have j12 : containsSub "顎を細くする 強度3".data "くちびる".data = false := by with_unfolding_all decide
    have j13 : containsSub "顎を細くする 強度3".data "唇の厚さ".data = false := by with_unfolding_all decide
    have j14 : containsSub "顎を細くする 強度3".data "頬".data = false := by with_unfolding_all decide
    have j15 : containsSub "顎を細くする 強度3".data "ほほ".data = false := by with_unfolding_all decide
    have j16 : containsSub "顎を細くする 強度3".data "ほお".data = false := by with_unfolding_all decide
    have j17 : containsSub "顎を細くする 強度3".data "額".data = false := by with_unfolding_all decide
    have j18 : containsSub "顎を細くする 強度3".data "ひたい".data = false := by with_unfolding_all decide
    have j19 : containsSub "顎を細くする 強度3".data "顎下".data = false := by with_unfolding_all decide
    have j20 : containsSub "顎を細くする 強度3".data "顎下脂肪".data = false := by with_unfolding_all decide
    have j21 : containsSub "顎を細くする 強度3".data "顎下脂肪吸引".data = false := by with_unfolding_all decide
    have j22 : containsSub "顎を細くする 強度3".data "二重顎".data = false := by with_unfolding_all decide
    have j23 : containsSub "顎を細くする 強度3".data "サブメンタル".data = false := by with_unfolding_all decide
    have j24 : containsSub "顎を細くする 強度3".data "submental".data = false := by with_unfolding_all decide
    have ha : inferAction "顎を細くする 強度3".data = ("decrease", 1) := by with_unfolding_all decide
    have hi : inferIntensity "顎を細くする 強度3".data = 1 := by with_unfolding_all decide
    have hd : getDefaultDelta "jaw_width_mm" "decrease" * 1 = -14/5 := by
      with_unfolding_all decide
    simp only [extractOperations, keywordMapping, List.filterMap_cons, List.filterMap_nil,
      j00, j01, j02, j03, j04, j05, j06, j07, j08, j09, j10, j11, j12, j13, j14, j15, j16, j17, j18, j19, j20, j21, j22, j23, j24,
      ha, hi, hd, Bool.false_eq_true, if_true, if_false, ite_true, ite_false, reduceIte]
  have hnum : extractNumericalValues "顎を細くする 強度3"
      [{ target := "jaw_width_mm", delta_mm := -14/5, action_type := "decrease",
         intensity_multiplier := 1, keyword_found := "顎", action_found := "decrease",
         numerical_value := none, value_type := none, radius_mm := none, sigma_mm := none }] =
      [{ target := "jaw_width_mm", delta_mm := 6/5, action_type := "decrease",
         intensity_multiplier := 1, keyword_found := "顎", action_found := "decrease",
         numerical_value := some (3/10), value_type := some "intensity",
         radius_mm := none, sigma_mm := none }] := by
    have hm : findAll matchMMAt "顎を細くする 強度3".data = [] := by with_unfolding_all decide
    have hr : findAll matchRatioAt "顎を細くする 強度3".data = [] := by with_unfolding_all decide
    have hin : findAll matchIntensityAt "顎を細くする 強度3".data = [3] := by with_unfolding_all decide
    have hc : convertValueToDelta "jaw_width_mm" (3/10) "intensity" = 6/5 := by
      with_unfolding_all decide
    simp only [extractNumericalValues, hm, hr, hin, List.map_cons, List.map_nil,
      List.nil_append, List.append_nil, hc]
  have hval : validateAndNormalizeOperations
      [{ target := "jaw_width_mm", delta_mm := 6/5, action_type := "decrease",
         intensity_multiplier := 1, keyword_found := "顎", action_found := "decrease",
         numerical_value := some (3/10), value_type := some "intensity",
         radius_mm := none, sigma_mm := none }] =
      [{ target := "jaw_width_mm", delta_mm := 6/5, action_type := "decrease",
         intensity_multiplier := 1, keyword_found := "顎", action_found := "decrease",
         numerical_value := some (3/10), value_type := some "intensity",
         radius_mm := some 12, sigma_mm := some 8 }] := by
    have hv : validateDelta "jaw_width_mm" (6/5) = true := by with_unfolding_all decide
    simp only [validateAndNormalizeOperations, hv, if_true, addTargetParams, getTargetParams]
  have hext2 : extractOperations (normalizeInstruction "顎を細くする 強度3") =
      [{ target := "jaw_width_mm", delta_mm := -14/5, action_type := "decrease",
         intensity_multiplier := 1, keyword_found := "顎", action_found := "decrease",
         numerical_value := none, value_type := none, radius_mm := none, sigma_mm := none }] := by rw [hnorm]; exact hext
  unfold parseInstruction
  dsimp only
  rw [hext2, hnum, hval]

/-- Full evaluation of the parser on the instruction 目の大きさ 0.2mm
(eye size, 0.2mm): the keywords 目 and 目の大きさ both fire. -/
theorem parseInstruction_eval_eyes :
    parseInstruction "目の大きさ 0.2mm" =
      [{ target := "eye_size_ratio", delta_mm := 1/5, action_type := "increase",
         intensity_multiplier := 1, keyword_found := "目", action_found := "increase",
         numerical_value := some (1/5), value_type := some "mm", radius_mm := some 12, sigma_mm := some 8 },
       { target := "eye_size_ratio", delta_mm := 9/100, action_type := "increase",
         intensity_multiplier := 1, keyword_found := "目の大きさ", action_found := "increase",
         numerical_value := none, value_type := none, radius_mm := some 12, sigma_mm := some 8 }] := by
  have hnorm : normalizeInstruction "目の大きさ 0.2mm" = "目の大きさ 0.2mm" := by with_unfolding_all decide
  have hext : extractOperations "目の大きさ 0.2mm" =
      [{ target := "eye_size_ratio", delta_mm := 9/100, action_type := "increase",
         intensity_multiplier := 1, keyword_found := "目", action_found := "increase",
         numerical_value := none, value_type := none, radius_mm := none, sigma_mm := none },
       { target := "eye_size_ratio", delta_mm := 9/100, action_type := "increase",
         intensity_multiplier := 1, keyword_found := "目の大きさ", action_found := "increase",
         numerical_value := none, value_type := none, radius_mm := none, sigma_mm := none }] := by
    have e00 : containsSub "目の大きさ 0.2mm".data "鼻尖".data = false := by with_unfolding_all decide
    have e01 : containsSub "目の大きさ 0.2mm".data "鼻先".data = false := by with_unfolding_all decide
    have e02 : containsSub "目の大きさ 0.2mm".data "鼻の先".data = false := by with_unfolding_all decide
    have e03 : containsSub "目の大きさ 0.2mm".data "鼻筋".data = false := by with_unfolding_all decide
    have e04 : containsSub "目の大きさ 0.2mm".data "鼻の高さ".data = false := by with_unfolding_all decide
    have e05 : containsSub "目の大きさ 0.2mm".data "目".data = true := by with_unfolding_all decide
    have e06 : containsSub "目の大きさ 0.2mm".data "目のサイズ".data = false := by with_unfolding_all decide
    have e07 : containsSub "目の大きさ 0.2mm".data "目の大きさ".data = true := by with_unfolding_all decide
    have e08 : containsSub "目の大きさ 0.2mm".data "顎".data = false := by with_unfolding_all decide
    have e09 : containsSub "目の大きさ 0.2mm".data "顎幅".data = false := by with_unfolding_all decide
    have e10 : containsSub "目の大きさ 0.2mm".data "あご".data = false := by with_unfolding_all decide
    have e11 : containsSub "目の大きさ 0.2mm".data "唇".data = false := by with_unfolding_all decide
    have e12 : containsSub "目の大きさ 0.2mm".data "くちびる".data = false := by with_unfolding_all decide
    have e13 : containsSub "目の大きさ 0.2mm".data "唇の厚さ".data = false := by with_unfolding_all decide
    have e14 : containsSub "目の大きさ 0.2mm".data "頬".data = false := by with_unfolding_all decide
    have e15 : containsSub "目の大きさ 0.2mm".data "ほほ".data = false := by with_unfolding_all decide
    have e16 : containsSub "目の大きさ 0.2mm".data "ほお".data = false := by with_unfolding_all decide
    have e17 : containsSub "目の大きさ 0.2mm".data "額".data = false := by with_unfolding_all decide
    have e18 : containsSub "目の大きさ 0.2mm".data "ひたい".data = false := by with_unfolding_all decide
    have e19 : containsSub "目の大きさ 0.2mm".data "顎下".data = false := by with_unfolding_all decide
    have e20 : containsSub "目の大きさ 0.2mm".data "顎下脂肪".data = false := by with_unfolding_all decide
    have e21 : containsSub "目の大きさ 0.2mm".data "顎下脂肪吸引".data = false := by with_unfolding_all decide
    have e22 : containsSub "目の大きさ 0.2mm".data "二重顎".data = false := by with_unfolding_all decide
    have e23 : containsSub "目の大きさ 0.2mm".data "サブメンタル".data = false := by with_unfolding_all decide
    have e24 : containsSub "目の大きさ 0.2mm".data "submental".data = false := by with_unfolding_all decide
    have ha : inferAction "目の大きさ 0.2mm".data = ("increase", 1) := by with_unfolding_all decide
    have hi : inferIntensity "目の大きさ 0.2mm".data = 1 := by with_unfolding_all decide
    have hd : getDefaultDelta "eye_size_ratio" "increase" * 1 = 9/100 := by
      with_unfolding_all decide
    simp only [extractOperations, keywordMapping, List.filterMap_cons, List.filterMap_nil,
      e00, e01, e02, e03, e04, e05, e06, e07, e08, e09, e10, e11, e12, e13, e14, e15, e16, e17, e18, e19, e20, e21, e22, e23, e24,
      ha, hi, hd, Bool.false_eq_true, if_true, if_false, ite_true, ite_false, reduceIte]
  have hnum : extractNumericalValues "目の大きさ 0.2mm"
      [{ target := "eye_size_ratio", delta_mm := 9/100, action_type := "increase",
         intensity_multiplier := 1, keyword_found := "目", action_found := "increase",
         numerical_value := none, value_type := none, radius_mm := none, sigma_mm := none },
       { target := "eye_size_ratio", delta_mm := 9/100, action_type := "increase",
         intensity_multiplier := 1, keyword_found := "目の大きさ", action_found := "increase",
         numerical_value := none, value_type := none, radius_mm := none, sigma_mm := none }] =
      [{ target := "eye_size_ratio", delta_mm := 1/5, action_type := "increase",
         intensity_multiplier := 1, keyword_found := "目", action_found := "increase",
         numerical_value := some (1/5), value_type := some "mm", radius_mm := none, sigma_mm := none },
       { target := "eye_size_ratio", delta_mm := 9/100, action_type := "increase",
         intensity_multiplier := 1, keyword_found := "目の大きさ", action_found := "increase",
         numerical_value := none, value_type := none, radius_mm := none, sigma_mm := none }] := by
    have hm : findAll matchMMAt "目の大きさ 0.2mm".data = [1/5] := by with_unfolding_all decide
    have hr : findAll matchRatioAt "目の大きさ 0.2mm".data = [] := by with_unfolding_all decide
    have hin : findAll matchIntensityAt "目の大きさ 0.2mm".data = [] := by with_unfolding_all decide
    have hc : convertValueToDelta "eye_size_ratio" (1/5) "mm" = 1/5 := by
      with_unfolding_all decide
    simp only [extractNumericalValues, hm, hr, hin, List.map_cons, List.map_nil,
      List.nil_append, List.append_nil, hc]
  have hval : validateAndNormalizeOperations
      [{ target := "eye_size_ratio", delta_mm := 1/5, action_type := "increase",
         intensity_multiplier := 1, keyword_found := "目", action_found := "increase",
         numerical_value := some (1/5), value_type := some "mm", radius_mm := none, sigma_mm := none },
       { target := "eye_size_ratio", delta_mm := 9/100, action_type := "increase",
         intensity_multiplier := 1, keyword_found := "目の大きさ", action_found := "increase",
         numerical_value := none, value_type := none, radius_mm := none, sigma_mm := none }] =
      [{ target := "eye_size_ratio", delta_mm := 1/5, action_type := "increase",
         intensity_multiplier := 1, keyword_found := "目", action_found := "increase",
         numerical_value := some (1/5), value_type := some "mm", radius_mm := some 12, sigma_mm := some 8 },
       { target := "eye_size_ratio", delta_mm := 9/100, action_type := "increase",
         intensity_multiplier := 1, keyword_found := "目の大きさ", action_found := "increase",
         numerical_value := none, value_type := none, radius_mm := some 12, sigma_mm := some 8 }] := by
    have hv1 : validateDelta "eye_size_ratio" (1/5) = true := by with_unfolding_all decide
    have hv2 : validateDelta "eye_size_ratio" (9/100) = true := by with_unfolding_all decide
    simp only [validateAndNormalizeOperations, hv1, hv2, if_true, addTargetParams,
      getTargetParams]
  have hext2 : extractOperations (normalizeInstruction "目の大きさ 0.2mm") =
      [{ target := "eye_size_ratio", delta_mm := 9/100, action_type := "increase",
         intensity_multiplier := 1, keyword_found := "目", action_found := "increase",
         numerical_value := none, value_type := none, radius_mm := none, sigma_mm := none },
       { target := "eye_size_ratio", delta_mm := 9/100, action_type := "increase",
         intensity_multiplier := 1, keyword_found := "目の大きさ", action_found := "increase",
         numerical_value := none, value_type := none, radius_mm := none, sigma_mm := none }] := by rw [hnorm]; exact hext
  unfold parseInstruction
  dsimp only
  rw [hext2, hnum, hval]

/-- C1, evaluated at the failing input: parsing 顎を細くする 強度3 yields
one operation on jaw_width_mm with action decrease and delta magnitude
(3/10) × max_delta(jaw_width_mm), as the claim states, but the delta the
code produces is +6/5: _convert_value_to_delta drops the decrease sign
for intensity overrides, so the delta is positive, not negative. -/
theorem parse_jaw_intensity_override_positive_delta :
    parseInstruction "顎を細くする 強度3" =
      [{ target := "jaw_width_mm", delta_mm := 6/5, action_type := "decrease",
         intensity_multiplier := 1, keyword_found := "顎", action_found := "decrease",
         numerical_value := some (3/10), value_type := some "intensity",
         radius_mm := some 12, sigma_mm := some 8 }] ∧
    (6/5 : ℚ) = (3/10) * getMaxDelta "jaw_width_mm" ∧ (0 : ℚ) < 6/5 := by
  refine ⟨parseInstruction_eval_jaw, ?_, by norm_num⟩
  with_unfolding_all decide

/-- C10: the text 目の大きさ 0.2mm makes two distinct synonym keywords
(目, a substring of 目の大きさ, and 目の大きさ itself) each emit an
operation on the same target eye_size_ratio, and the numeric 0.2mm
override is applied only to the first of them (the second keeps the
default delta 9/100 and no numerical_value). -/
theorem parse_synonym_keywords_duplicate_target :
    parseInstruction "目の大きさ 0.2mm" =
      [{ target := "eye_size_ratio", delta_mm := 1/5, action_type := "increase",
         intensity_multiplier := 1, keyword_found := "目", action_found := "increase",
         numerical_value := some (1/5), value_type := some "mm", radius_mm := some 12, sigma_mm := some 8 },
       { target := "eye_size_ratio", delta_mm := 9/100, action_type := "increase",
         intensity_multiplier := 1, keyword_found := "目の大きさ", action_found := "increase",
         numerical_value := none, value_type := none, radius_mm := some 12, sigma_mm := some 8 }] ∧
    containsSub "目の大きさ".data "目".data = true :=
  ⟨parseInstruction_eval_eyes, by with_unfolding_all decide⟩

/-! ## Parser validation: reject, not clamp -/

theorem validateAndNormalize_eq_filter_map (ops : List Operation) :
    validateAndNormalizeOperations ops =
      (ops.filter fun o => validateDelta o.target o.delta_mm).map addTargetParams := by
  induction ops with
  | nil => rfl
  | cons op rest ih =>
    by_cases hv : validateDelta op.target op.delta_mm = true
    · simp [validateAndNormalizeOperations, List.filter_cons, hv, ih]
    · simp [validateAndNormalizeOperations, List.filter_cons, hv, ih]

theorem mem_validateAndNormalize_bounds (op : Operation) (ops : List Operation)
    (h : op ∈ validateAndNormalizeOperations ops) :
    getMinDelta op.target ≤ op.delta_mm ∧ op.delta_mm ≤ getMaxDelta op.target := by
  induction ops with
  | nil => simp [validateAndNormalizeOperations] at h
  | cons hd rest ih =>
    unfold validateAndNormalizeOperations at h
    by_cases hv : validateDelta hd.target hd.delta_mm = true
    · rw [if_pos hv] at h
      rcases List.mem_cons.mp h with heq | hmem
      · subst heq
        exact of_decide_eq_true hv
      · exact ih hmem
    · rw [if_neg hv] at h
      exact ih h

/-- C5: every operation returned by parse_instruction has its delta
inside the safety range [min_delta(target), max_delta(target)]; and the
validation stage is exactly a filter (dropping out-of-range operations
and attaching target parameters), never a clamp — kept operations keep
their delta unchanged. -/
theorem parse_instruction_delta_in_range_reject_not_clamp (s : String) (op : Operation)
    (h : op ∈ parseInstruction s) :
    (getMinDelta op.target ≤ op.delta_mm ∧ op.delta_mm ≤ getMaxDelta op.target) ∧
    validateAndNormalizeOperations
        (extractNumericalValues s (extractOperations (normalizeInstruction s))) =
      ((extractNumericalValues s (extractOperations (normalizeInstruction s))).filter
          fun o => validateDelta o.target o.delta_mm).map addTargetParams := by
  have h' : op ∈ validateAndNormalizeOperations
      (extractNumericalValues s (extractOperations (normalizeInstruction s))) := h
  exact ⟨mem_validateAndNormalize_bounds op _ h', validateAndNormalize_eq_filter_map _⟩

/-- Witness for C5 at the parsed jaw operation of 顎を細くする 強度3. -/
theorem parse_instruction_delta_in_range_reject_not_clamp_witness :
    (getMinDelta "jaw_width_mm" ≤ (6/5 : ℚ) ∧ (6/5 : ℚ) ≤ getMaxDelta "jaw_width_mm") ∧
    validateAndNormalizeOperations
        (extractNumericalValues "顎を細くする 強度3"
          (extractOperations (normalizeInstruction "顎を細くする 強度3"))) =
      ((extractNumericalValues "顎を細くする 強度3"
          (extractOperations (normalizeInstruction "顎を細くする 強度3"))).filter
          fun o => validateDelta o.target o.delta_mm).map addTargetParams :=
  parse_instruction_delta_in_range_reject_not_clamp "顎を細くする 強度3"
    { target := "jaw_width_mm", delta_mm := 6/5, action_type := "decrease",
      intensity_multiplier := 1, keyword_found := "顎", action_found := "decrease",
      numerical_value := some (3/10), value_type := some "intensity",
      radius_mm := some 12, sigma_mm := some 8 }
    (by rw [parseInstruction_eval_jaw]; exact List.mem_singleton_self _)

end CosmeticSim
